import Mathlib

/-!
Shallow embedding of the discovery-and-dedup engine of the Korea_Stock
repository (src/youtube_scraper_utils.py, src/scheduler.py,
src/gemini_analyzer.py).  Python strings are modelled as `List Char`,
Python integers as `Int`/`Nat`, fallible operations as `Option`/`Except`,
and the network / record-store collaborators as explicit oracle values
threaded through the functions.  Each definition carries a note naming
the Python function and lines it embeds.
-/

namespace KoreaStock

/-- Python `a in s` substring test, helper: does `p` occur at the start of
`s`?  (Executable counterpart of `p <+: s`.) -/
def isPre : List Char → List Char → Bool
  | [], _ => true
  | _ :: _, [] => false
  | a :: p, b :: s => a == b && isPre p s

/-- Python's `pat in s` substring containment on strings. -/
def containsSub (pat : List Char) : List Char → Bool
  | [] => isPre pat []
  | s@(_ :: rest) => isPre pat s || containsSub pat rest

theorem isPre_iff (p s : List Char) : isPre p s = true ↔ p <+: s := by
  induction p generalizing s with
  | nil => simp [isPre]
  | cons a p ih =>
    cases s with
    | nil => simp [isPre]
    | cons b s =>
      simp only [isPre, Bool.and_eq_true, beq_iff_eq, ih, List.cons_prefix_cons]

theorem containsSub_iff (pat s : List Char) :
    containsSub pat s = true ↔ ∃ t, t <:+ s ∧ pat <+: t := by
  induction s with
  | nil =>
    simp only [containsSub, isPre_iff]
    constructor
    · intro h; exact ⟨[], List.nil_suffix, h⟩
    · rintro ⟨t, ht, hp⟩
      cases List.suffix_nil.mp ht
      exact hp
  | cons b s ih =>
    simp only [containsSub, Bool.or_eq_true, isPre_iff, ih]
    constructor
    · rintro (h | ⟨t, ht, hp⟩)
      · exact ⟨b :: s, List.suffix_refl _, h⟩
      · exact ⟨t, ht.trans (List.suffix_cons b s), hp⟩
    · rintro ⟨t, ht, hp⟩
      rcases List.suffix_cons_iff.mp ht with h | h
      · subst h; exact Or.inl hp
      · exact Or.inr ⟨t, h, hp⟩

/-- Python `str.strip()` (both-ends whitespace strip). -/
def stripList (s : List Char) : List Char :=
  ((s.dropWhile Char.isWhitespace).reverse.dropWhile Char.isWhitespace).reverse

/-- Value of a nonempty all-decimal-digit string; `none` otherwise.
Helper for `pyInt`. -/
def digitsToNat : List Char → Option Nat
  | [] => none
  | ds =>
    if ds.all Char.isDigit then
      some (ds.foldl (fun n c => 10 * n + (c.toNat - 48)) 0)
    else none

/-- Python `int(str)`: strips whitespace, accepts an optional sign followed
by decimal digits (digit-group underscores are not modelled). `none` models
the `ValueError` raise. -/
def pyInt (s : List Char) : Option Int :=
  match stripList s with
  | '+' :: ds => (digitsToNat ds).map Int.ofNat
  | '-' :: ds => (digitsToNat ds).map fun n => -(n : Int)
  | ds => (digitsToNat ds).map Int.ofNat

/-- Python `text.split(sep)` for a single-character separator;
`"".split(":") == [""]` is reproduced. -/
def splitOnChar (sep : Char) : List Char → List (List Char)
  | [] => [[]]
  | c :: rest =>
    if c = sep then [] :: splitOnChar sep rest
    else
      match splitOnChar sep rest with
      | [] => [[c]]
      | g :: gs => (c :: g) :: gs

/-- `parse_duration_from_text` (src/youtube_scraper_utils.py lines 282-309):
splits the duration text on `":"`; 3 parts are h:m:s, 2 parts m:s, 1 part
seconds; any `int()` failure or other part count yields 0. -/
def parse_duration_from_text (s : List Char) : Int :=
  match splitOnChar ':' s with
  | [h, m, sec] =>
    match pyInt h, pyInt m, pyInt sec with
    | some a, some b, some c => a * 3600 + b * 60 + c
    | _, _, _ => 0
  | [m, sec] =>
    match pyInt m, pyInt sec with
    | some b, some c => b * 60 + c
    | _, _ => 0
  | [x] =>
    match pyInt x with
    | some a => a
    | none => 0
  | _ => 0

/-- Candidate Item: the dict appended by `find_videos_with_keyword`
(src/youtube_scraper_utils.py lines 123-132 / 188-197 / 260-269). -/
structure Video where
  title : List Char
  url : List Char
  video_id : List Char
  upload_date : List Char
  is_upcoming : Bool
  is_live : Bool
  video_length : List Char
  duration_seconds : Int
deriving DecidableEq, Repr

/-- A `gridVideoRenderer` restricted to the fields the parser reads:
title runs, videoId, `publishedTimeText.simpleText`, the `style` fields of
its `thumbnailOverlayTimeStatusRenderer` overlays, and
`lengthText.simpleText`. -/
structure GridVideoRenderer where
  titleRuns : List (List Char)
  videoId : List Char
  publishedTimeText : Option (List Char)
  overlayStyles : List (List Char)
  lengthText : Option (List Char)
deriving DecidableEq, Repr

/-- A `videoRenderer` restricted to the fields the parser reads; compared
with the grid renderer it additionally carries the `style` fields of its
`metadataBadgeRenderer` badges. -/
structure VideoRenderer where
  titleRuns : List (List Char)
  videoId : List Char
  publishedTimeText : Option (List Char)
  badgeStyles : List (List Char)
  overlayStyles : List (List Char)
  lengthText : Option (List Char)
deriving DecidableEq, Repr

/-- One entry of an `itemSectionRenderer.contents` list: a `gridRenderer`
(whose items may or may not be `gridVideoRenderer`s), a `videoRenderer`,
or any other unrecognised renderer (skipped by the parser). -/
inductive ContentItem where
  | grid (items : List (Option GridVideoRenderer))
  | video (r : VideoRenderer)
  | other
deriving DecidableEq, Repr

/-- A tab's content: a `sectionListRenderer` (sections lacking an
`itemSectionRenderer` are `none`) or a `richGridRenderer` (items lacking a
`richItemRenderer.content.videoRenderer` are `none`). -/
inductive TabContent where
  | sectionList (sections : List (Option (List ContentItem)))
  | richGrid (items : List (Option VideoRenderer))
deriving DecidableEq, Repr

/-- The shapes of `ytInitialData` recognised by lines 45-58 of
src/youtube_scraper_utils.py: `contents.twoColumnBrowseResultsRenderer.tabs`,
a bare `contents.sectionListRenderer` (wrapped as a single synthetic tab),
or anything else (no tab renderers, parse yields `[]`).  A tab without a
`tabRenderer`, or with missing content, is `none`. -/
inductive ListingData where
  | browseTabs (tabs : List (Option TabContent))
  | sectionRoot (sections : List (Option (List ContentItem)))
  | unrecognized
deriving DecidableEq, Repr

/-- Tab-renderer discovery, lines 45-58. -/
def tabRenderersOf : ListingData → List (Option TabContent)
  | .browseTabs ts => ts
  | .sectionRoot secs => [some (.sectionList secs)]
  | .unrecognized => []

/-- Lowercasing used by the case-insensitive keyword test
(`keyword.lower() in title.lower()`). -/
def lowerList (s : List Char) : List Char := s.map Char.toLower

/-- The overlay loop shared by all three renderer blocks (lines 104-112,
169-177, 241-249): each `thumbnailOverlayTimeStatusRenderer` style sets
`is_upcoming` on `"UPCOMING"` and `is_live` on `"LIVE"`. -/
def overlayFlags : List (List Char) → Bool → Bool → Bool × Bool
  | [], up, live => (up, live)
  | st :: rest, up, live =>
    if st = "UPCOMING".toList then overlayFlags rest true live
    else if st = "LIVE".toList then overlayFlags rest up true
    else overlayFlags rest up live

/-- The badge loop of the `videoRenderer` blocks (lines 162-167, 234-239):
a `metadataBadgeRenderer` with style `BADGE_STYLE_TYPE_LIVE_NOW` sets
`is_live`. -/
def badgeLive : List (List Char) → Bool → Bool
  | [], live => live
  | b :: rest, live =>
    if b = "BADGE_STYLE_TYPE_LIVE_NOW".toList then badgeLive rest true
    else badgeLive rest live

/-- Title, URL, upload time and duration extraction common to all renderer
blocks; returns the Candidate Item when the keyword matches the title
case-insensitively, `none` otherwise. -/
def mkVideo (keyword title videoId uploadTime : List Char)
    (isUpcoming isLive : Bool) (lengthText : Option (List Char)) :
    Option Video :=
  if containsSub (lowerList keyword) (lowerList title) then
    some
      { title := title
        url := "https://www.youtube.com/watch?v=".toList ++ videoId
        video_id := videoId
        upload_date := uploadTime
        is_upcoming := isUpcoming
        is_live := isLive
        video_length := (lengthText.getD "Unknown".toList)
        duration_seconds :=
          match lengthText with
          | some t => parse_duration_from_text t
          | none => 0 }
  else none

/-- The `gridVideoRenderer` block, lines 78-133. -/
def extractGridItem (keyword : List Char) (r : GridVideoRenderer) :
    Option Video :=
  let title := r.titleRuns.foldl (· ++ ·) []
  let (isUp, isLive) := overlayFlags r.overlayStyles false false
  mkVideo keyword title r.videoId (r.publishedTimeText.getD [])
    isUp isLive r.lengthText

/-- The `videoRenderer` block, lines 136-198 (duplicated verbatim at lines
208-270 for the rich-grid shape): badges first, then overlays. -/
def extractVideoItem (keyword : List Char) (r : VideoRenderer) :
    Option Video :=
  let title := r.titleRuns.foldl (· ++ ·) []
  let liveFromBadges := badgeLive r.badgeStyles false
  let (isUp, isLive) := overlayFlags r.overlayStyles false liveFromBadges
  mkVideo keyword title r.videoId (r.publishedTimeText.getD [])
    isUp isLive r.lengthText

/-- Candidate Items contributed by one `itemSectionRenderer` entry. -/
def contentItemVideos (keyword : List Char) : ContentItem → List Video
  | .grid items =>
    items.flatMap fun g =>
      match g with
      | some r => (extractGridItem keyword r).toList
      | none => []
  | .video r => (extractVideoItem keyword r).toList
  | .other => []

/-- Candidate Items contributed by one tab. -/
def tabVideos (keyword : List Char) : Option TabContent → List Video
  | none => []
  | some (.sectionList sections) =>
    sections.flatMap fun sec =>
      match sec with
      | some items => items.flatMap (contentItemVideos keyword)
      | none => []
  | some (.richGrid items) =>
    items.flatMap fun it =>
      match it with
      | some r => (extractVideoItem keyword r).toList
      | none => []

/-- The ternary sort key of lines 273-275:
live = −1, normal = 0, upcoming = 1. -/
def sortKey (v : Video) : Int :=
  if v.is_live then -1 else if v.is_upcoming then 1 else 0

/-- Stable insertion used to model Python's stable `list.sort(key=...)`:
an element is placed before the equal-keyed elements that followed it. -/
def insertVideo (v : Video) : List Video → List Video
  | [] => [v]
  | w :: ws =>
    if sortKey w < sortKey v then w :: insertVideo v ws
    else v :: w :: ws

/-- Stable sort by `sortKey`, modelling `videos.sort(key=...)` of lines
273-275 (Python's sort is stable; any stable sort denotes the same
function). -/
def sortVideos : List Video → List Video
  | [] => []
  | v :: vs => insertVideo v (sortVideos vs)

/-- `find_videos_with_keyword` (src/youtube_scraper_utils.py lines 40-280):
walks the recognised container shapes collecting keyword-matching
Candidate Items in traversal order, then stably sorts them so live items
precede normal items, which precede upcoming items. -/
def find_videos_with_keyword (data : ListingData) (keyword : List Char) :
    List Video :=
  sortVideos ((tabRenderersOf data).flatMap (tabVideos keyword))

/-- `find_latest_video_by_scraping` candidate selection, lines 513-532:
any live item wins; else the first normal item of at least 300 seconds;
else the first upcoming item; else no candidate (the attempt falls through
to retry/fallback). -/
def selectVideo (videos : List Video) : Option Video :=
  let liveVideos := videos.filter fun v => v.is_live
  let upcomingVideos := videos.filter fun v => v.is_upcoming
  let normalVideos := videos.filter fun v => !v.is_live && !v.is_upcoming
  match liveVideos with
  | v :: _ => some v
  | [] =>
    match normalVideos.filter fun v => v.duration_seconds ≥ 300 with
    | v :: _ => some v
    | [] =>
      match upcomingVideos with
      | v :: _ => some v
      | [] => none

/-- Python `text.replace(pat, rep)` for a nonempty pattern: replaces all
non-overlapping occurrences left to right (the empty-pattern behaviour of
Python is not modelled; every call site uses a nonempty literal). -/
def replaceAll (pat rep : List Char) : List Char → List Char
  | [] => []
  | c :: rest =>
    if h : pat ≠ [] ∧ isPre pat (c :: rest) = true then
      rep ++ replaceAll pat rep ((c :: rest).drop pat.length)
    else c :: replaceAll pat rep rest
termination_by s => s.length
decreasing_by
  · have hp : 0 < pat.length := List.length_pos.mpr h.1
    simp only [List.length_drop, List.length_cons]
    omega
  · simp

/-- The `/streams` listing path marker of
src/youtube_scraper_utils.py lines 459-462 and 490-494. -/
def streamsPath : List Char := "/streams".toList

/-- The `/videos` fallback path marker. -/
def videosPath : List Char := "/videos".toList

theorem streamsPath_ne_nil : streamsPath ≠ [] := by decide

/-- No nonempty suffix of `/videos` is a prefix of `/streams`: a
replacement can therefore never seed a new occurrence of `/streams`. -/
theorem no_overlap : ∀ r' ∈ videosPath.tails,
    isPre r' streamsPath = true → r' = [] := by decide

/-- Every suffix of `/streams` other than the whole pattern starts with a
character other than `'/'`. -/
theorem streams_tails_head : ∀ q ∈ streamsPath.tails,
    q ≠ streamsPath → q.head? ≠ some '/' := by decide

theorem suffix_append_cases {α : Type} (a b u : List α) (h : u <:+ a ++ b) :
    u <:+ b ∨ ∃ r', r' <:+ a ∧ u = r' ++ b := by
  induction a with
  | nil => exact Or.inl (by simpa using h)
  | cons c a ih =>
    rcases List.suffix_cons_iff.mp (by simpa using h) with h1 | h1
    · exact Or.inr ⟨c :: a, List.suffix_refl _, by simpa using h1⟩
    · rcases ih h1 with h2 | ⟨r', hr, rfl⟩
      · exact Or.inl h2
      · exact Or.inr ⟨r', hr.trans (List.suffix_cons c a), rfl⟩

/-- A proper suffix of `/streams` that is a prefix of the replaced text is
already a prefix of the original text. -/
theorem prefix_transport : ∀ s q : List Char, q <:+ streamsPath →
    q ≠ streamsPath → q <+: replaceAll streamsPath videosPath s →
    q <+: s := by
  intro s
  induction s with
  | nil =>
    intro q _ _ hq
    simpa [replaceAll] using hq
  | cons c rest ih =>
    intro q hsuf hne hq
    by_cases hpre : isPre streamsPath (c :: rest) = true
    · rw [replaceAll, dif_pos ⟨streamsPath_ne_nil, hpre⟩] at hq
      cases q with
      | nil => exact List.nil_prefix
      | cons q0 q' =>
        exfalso
        have hv : videosPath = '/' :: "videos".toList := by decide
        rw [hv, List.cons_append] at hq
        have hq0 : q0 = '/' := (List.cons_prefix_cons.mp hq).1
        exact streams_tails_head _ ((List.mem_tails _ _).mpr hsuf) hne
          (by simp [hq0])
    · rw [replaceAll, dif_neg (by simp [hpre])] at hq
      cases q with
      | nil => exact List.nil_prefix
      | cons q0 q' =>
        obtain ⟨hq0, hq'⟩ := List.cons_prefix_cons.mp hq
        have hsuf' : q' <:+ streamsPath :=
          (List.suffix_cons q0 q').trans hsuf
        have hne' : q' ≠ streamsPath := by
          intro heq
          have hlen := hsuf.length_le
          rw [heq] at hlen
          simp at hlen
        exact List.cons_prefix_cons.mpr ⟨hq0, ih q' hsuf' hne' hq'⟩

theorem replFree_aux : ∀ n, ∀ s : List Char, s.length ≤ n →
    ¬ ∃ u, u <:+ replaceAll streamsPath videosPath s ∧ streamsPath <+: u := by
  intro n
  induction n with
  | zero =>
    intro s hs
    have : s = [] := List.eq_nil_of_length_eq_zero (Nat.le_zero.mp hs)
    subst this
    rintro ⟨u, hu, hp⟩
    rw [show replaceAll streamsPath videosPath [] = [] by rw [replaceAll],
      List.suffix_nil] at hu
    subst hu
    exact streamsPath_ne_nil (List.prefix_nil.mp hp)
  | succ n ih =>
    intro s hs
    cases s with
    | nil =>
      rintro ⟨u, hu, hp⟩
      rw [show replaceAll streamsPath videosPath [] = [] by rw [replaceAll],
        List.suffix_nil] at hu
      subst hu
      exact streamsPath_ne_nil (List.prefix_nil.mp hp)
    | cons c rest =>
      by_cases hpre : isPre streamsPath (c :: rest) = true
      · rw [replaceAll, dif_pos ⟨streamsPath_ne_nil, hpre⟩]
        rintro ⟨u, hu, hp⟩
        have hdroplen :
            ((c :: rest).drop streamsPath.length).length ≤ n := by
          simp only [List.length_drop, List.length_cons]
          have : streamsPath.length = 8 := by decide
          simp only [List.length_cons] at hs
          omega
        rcases suffix_append_cases _ _ _ hu with h1 | ⟨r', hr', rfl⟩
        · exact ih _ hdroplen ⟨u, h1, hp⟩
        · by_cases hr0 : r' = []
          · subst hr0
            exact ih _ hdroplen ⟨_, List.suffix_refl _, by simpa using hp⟩
          · rcases List.prefix_or_prefix_of_prefix hp
              (List.prefix_append r' _) with hc | hc
            · have h1 := hc.length_le
              have h2 := hr'.length_le
              have e1 : streamsPath.length = 8 := by decide
              have e2 : videosPath.length = 7 := by decide
              omega
            · exact hr0 (no_overlap r' ((List.mem_tails _ _).mpr hr')
                ((isPre_iff _ _).mpr hc))
      · rw [replaceAll, dif_neg (by simp [hpre])]
        rintro ⟨u, hu, hp⟩
        rcases List.suffix_cons_iff.mp hu with rfl | h1
        · have hsp : streamsPath = '/' :: "streams".toList := by decide
          rw [hsp] at hp
          obtain ⟨hc, htail⟩ := List.cons_prefix_cons.mp hp
          have htr : "streams".toList <+: rest :=
            prefix_transport rest _ ⟨['/'], by decide⟩ (by decide) htail
          exact hpre ((isPre_iff _ _).mpr
            (by rw [hsp]; exact List.cons_prefix_cons.mpr ⟨hc, htr⟩))
        · have hrest : rest.length ≤ n := by
            simp only [List.length_cons] at hs
            omega
          exact ih rest hrest ⟨u, h1, hp⟩

/-- After `channel_url.replace("/streams", "/videos")` the URL contains no
further occurrence of `/streams`: the videos-path fallback cannot trigger
a second fallback. -/
theorem replFree (s : List Char) :
    containsSub streamsPath (replaceAll streamsPath videosPath s) = false := by
  rw [← Bool.not_eq_true, containsSub_iff]
  exact replFree_aux s.length s le_rfl

/-- The substituted URL does contain `/videos`, so the recursive call does
not re-append `/streams` at its entry adjustment. -/
theorem replace_has_videos : ∀ s : List Char,
    containsSub streamsPath s = true →
    containsSub videosPath (replaceAll streamsPath videosPath s) = true := by
  intro s
  induction s with
  | nil => intro h; exact absurd h (by decide)
  | cons c rest ih =>
    intro h
    by_cases hpre : isPre streamsPath (c :: rest) = true
    · rw [replaceAll, dif_pos ⟨streamsPath_ne_nil, hpre⟩, containsSub_iff]
      exact ⟨_, List.suffix_refl _, List.prefix_append _ _⟩
    · rw [replaceAll, dif_neg (by simp [hpre]), containsSub_iff]
      have h' : containsSub streamsPath rest = true := by
        rw [containsSub] at h
        rcases (Bool.or_eq_true _ _).mp h with h1 | h1
        · exact absurd h1 hpre
        · exact h1
      obtain ⟨u, hu, hp⟩ := (containsSub_iff _ _).mp (ih h')
      exact ⟨u, hu.trans (List.suffix_cons _ _), hp⟩

/-- Outcome of one HTTP attempt of the scrape loop (lines 469-568):
`fail` covers timeout and any raised exception; `page d` is a successful
response whose `extract_initial_data` result is `d` (`none` models the
empty dict returned when no `ytInitialData` marker parses). -/
inductive FetchResult where
  | fail
  | page (data : Option ListingData)

/-- How one full run of the `for attempt in range(max_retries)` loop ends:
a selected video, the terminal branch of the last attempt (which consults
the `/streams`→`/videos` fallback), or — when `max_retries = 0` — the loop
body never ran and line 570 returns `None` without a fallback. -/
inductive LoopResult where
  | found (v : Video)
  | giveUp
  | noLoop

/-- Python `channel_url.rstrip('/')`. -/
def rstripSlash (s : List Char) : List Char :=
  (s.reverse.dropWhile (· = '/')).reverse

/-- Lines 459-462: append `/streams` when the URL names neither listing
path. -/
def adjustUrl (url : List Char) : List Char :=
  if !(containsSub videosPath url || containsSub streamsPath url) then
    rstripSlash url ++ streamsPath
  else url

/-- The retry loop of `find_latest_video_by_scraping` (lines 469-568) over
a fetch oracle giving each attempt's outcome.  Each iteration performs one
fetch (counted in the second component); a failed fetch, an empty
`ytInitialData`, no keyword match, and no selectable candidate all retry
with backoff while attempts remain and otherwise end the loop in the
terminal `giveUp` state. -/
def scrapeLoop (fetch : List Char → Nat → FetchResult)
    (url keyword : List Char) : Nat → Nat → LoopResult × Nat
  | 0, _ => (.noLoop, 0)
  | remaining + 1, idx =>
    let next : LoopResult × Nat :=
      if remaining > 0 then
        let r := scrapeLoop fetch url keyword remaining (idx + 1)
        (r.1, r.2 + 1)
      else (.giveUp, 1)
    match fetch url idx with
    | .fail => next
    | .page none => next
    | .page (some data) =>
      let videos := find_videos_with_keyword data keyword
      if videos = [] then next
      else
        match selectVideo videos with
        | some v => (.found v, 1)
        | none => next

theorem adjustUrl_noop_of_videos (s : List Char)
    (h : containsSub videosPath s = true) : adjustUrl s = s := by
  simp [adjustUrl, h]

/-- `find_latest_video_by_scraping` (lines 444-571): entry URL adjustment,
the retry loop, and the single-level `/streams`→`/videos` fallback that
recursively re-enters the procedure.  Returns the selected Candidate Item
(or none) together with the total number of fetch attempts performed. -/
def find_latest_video_by_scraping (fetch : List Char → Nat → FetchResult)
    (keyword : List Char) (maxRetries : Nat) (url : List Char) :
    Option Video × Nat :=
  match scrapeLoop fetch (adjustUrl url) keyword maxRetries 0 with
  | (.found v, n) => (some v, n)
  | (.noLoop, n) => (none, n)
  | (.giveUp, n) =>
    if containsSub streamsPath (adjustUrl url) then
      let r := find_latest_video_by_scraping fetch keyword maxRetries
        (replaceAll streamsPath videosPath (adjustUrl url))
      (r.1, n + r.2)
    else (none, n)
termination_by
  if containsSub streamsPath (adjustUrl url) = true then 1 else 0
decreasing_by
  rename_i hs
  have h1 : containsSub videosPath
      (replaceAll streamsPath videosPath (adjustUrl url)) = true :=
    replace_has_videos _ hs
  have h2 := adjustUrl_noop_of_videos _ h1
  simp [hs, h2, replFree]

theorem scrapeLoop_count_le (fetch : List Char → Nat → FetchResult)
    (url keyword : List Char) :
    ∀ remaining idx, (scrapeLoop fetch url keyword remaining idx).2 ≤
      remaining := by
  intro remaining
  induction remaining with
  | zero => intro idx; simp [scrapeLoop]
  | succ r ih =>
    intro idx
    rw [scrapeLoop]
    have hnext :
        (if r > 0 then
          let q := scrapeLoop fetch url keyword r (idx + 1)
          ((q.1, q.2 + 1) : LoopResult × Nat)
         else (.giveUp, 1)).2 ≤ r + 1 := by
      split
      · simpa using Nat.succ_le_succ (ih (idx + 1))
      · omega
    cases fetch url idx with
    | fail => exact hnext
    | page data =>
      cases data with
      | none => exact hnext
      | some d =>
        simp only []
        split
        · exact hnext
        · split
          · simp
          · exact hnext

theorem flvbs_count_le_of_no_streams (fetch : List Char → Nat → FetchResult)
    (keyword : List Char) (maxRetries : Nat) (url : List Char)
    (h : containsSub streamsPath (adjustUrl url) = false) :
    (find_latest_video_by_scraping fetch keyword maxRetries url).2 ≤
      maxRetries := by
  rw [find_latest_video_by_scraping]
  have hc := scrapeLoop_count_le fetch (adjustUrl url) keyword maxRetries 0
  rcases hres : scrapeLoop fetch (adjustUrl url) keyword maxRetries 0 with
    ⟨res, n⟩
  rw [hres] at hc
  cases res with
  | found v => simpa using hc
  | noLoop => simpa using hc
  | giveUp => simp [h]; simpa using hc

/-- Value of a digit character. -/
def digitVal (c : Char) : Nat := c.toNat - 48

/-- Decimal value of a list of digit characters. -/
def digitsVal (ds : List Char) : Nat :=
  ds.foldl (fun n c => 10 * n + digitVal c) 0

/-- `re.search(r'(\d+)', text)` of line 403: the first maximal digit run. -/
def firstNumber : List Char → Option Nat
  | [] => none
  | c :: rest =>
    if c.isDigit then some (digitsVal ((c :: rest).takeWhile Char.isDigit))
    else firstNumber rest

/-- Regex `\s*`: greedy whitespace skip (no backtracking is needed because
every atom following it in the modelled patterns matches a non-whitespace
character). -/
def skipWs (s : List Char) : List Char := s.dropWhile Char.isWhitespace

/-- Regex `\d{k}` at the current position: exactly `k` digit characters,
returning them and the rest. -/
def exactDigits : Nat → List Char → Option (List Char × List Char)
  | 0, s => some ([], s)
  | _ + 1, [] => none
  | k + 1, c :: s =>
    if c.isDigit then (exactDigits k s).map fun p => (c :: p.1, p.2)
    else none

/-- Regex `\d{1,2}` immediately followed by the literal character `term`
(a non-digit in every use), with the greedy two-digit attempt tried before
the one-digit backtrack; returns the numeral's value and the rest after
`term`. -/
def digits12Then (term : Char) : List Char → Option (Nat × List Char)
  | [] => none
  | a :: rest =>
    if a.isDigit then
      match rest with
      | [] => none
      | b :: rest2 =>
        if b.isDigit then
          match rest2 with
          | t :: rest3 =>
            if t = term then some (digitVal a * 10 + digitVal b, rest3)
            else none
          | [] => none
        else if b = term then some (digitVal a, rest2)
        else none
    else none

/-- Match of `(\d{4})년\s*(\d{1,2})월\s*(\d{1,2})일` (line 424) anchored at
the head of `s`. -/
def matchKoreanDateAt (s : List Char) : Option (Nat × Nat × Nat) :=
  (exactDigits 4 s).bind fun (yds, r1) =>
    match r1 with
    | '년' :: r2 =>
      (digits12Then '월' (skipWs r2)).bind fun (m, r4) =>
        (digits12Then '일' (skipWs r4)).map fun (d, _) =>
          (digitsVal yds, m, d)
    | _ => none

/-- `re.search` of the Korean absolute-date pattern: leftmost match. -/
def koreanDateSearch : List Char → Option (Nat × Nat × Nat)
  | [] => none
  | s@(_ :: rest) =>
    match matchKoreanDateAt s with
    | some r => some r
    | none => koreanDateSearch rest

/-- Regex `[A-Za-z]`. -/
def isAsciiAlpha (c : Char) : Bool :=
  ('A' ≤ c && c ≤ 'Z') || ('a' ≤ c && c ≤ 'z')

/-- Regex `[A-Za-z]{3}` at the current position. -/
def exactAlpha3 : List Char → Option (List Char × List Char)
  | a :: b :: c :: rest =>
    if isAsciiAlpha a && isAsciiAlpha b && isAsciiAlpha c then
      some ([a, b, c], rest)
    else none
  | _ => none

/-- Regex `,?\s*(\d{4})`: the optional comma is consumed when present (the
comma-less alternative can never match afterwards since `\d` rejects
`','`), then whitespace, then exactly four digits. -/
def engYearTail (r : List Char) : Option Nat :=
  let r1 := match r with | ',' :: t => t | _ => r
  (exactDigits 4 (skipWs r1)).map fun p => digitsVal p.1

/-- Regex `(\d{1,2}),?\s*(\d{4})` at the current position: the greedy
two-digit day is tried first, backtracking to a one-digit day. -/
def engDayYear : List Char → Option (Nat × Nat)
  | [] => none
  | a :: rest =>
    if a.isDigit then
      match rest with
      | [] => none
      | b :: rest2 =>
        if b.isDigit then
          match engYearTail rest2 with
          | some y => some (digitVal a * 10 + digitVal b, y)
          | none =>
            (engYearTail rest).map fun y => (digitVal a, y)
        else
          (engYearTail rest).map fun y => (digitVal a, y)
    else none

/-- Match of `([A-Za-z]{3})\s*(\d{1,2}),?\s*(\d{4})` (line 430) anchored
at the head of `s`: month word, day, year. -/
def matchEngDateAt (s : List Char) : Option (List Char × Nat × Nat) :=
  (exactAlpha3 s).bind fun (mon, r1) =>
    (engDayYear (skipWs r1)).map fun (d, y) => (mon, d, y)

/-- `re.search` of the English absolute-date pattern: leftmost match. -/
def engDateSearch : List Char → Option (List Char × Nat × Nat)
  | [] => none
  | s@(_ :: rest) =>
    match matchEngDateAt s with
    | some r => some r
    | none => engDateSearch rest

/-- `month_dict.get(month_str, 1)` of lines 433-437. -/
def monthLookup (m : List Char) : Nat :=
  if m = "Jan".toList then 1
  else if m = "Feb".toList then 2
  else if m = "Mar".toList then 3
  else if m = "Apr".toList then 4
  else if m = "May".toList then 5
  else if m = "Jun".toList then 6
  else if m = "Jul".toList then 7
  else if m = "Aug".toList then 8
  else if m = "Sep".toList then 9
  else if m = "Oct".toList then 10
  else if m = "Nov".toList then 11
  else if m = "Dec".toList then 12
  else 1

/-- Gregorian leap year, as `datetime` validates it. -/
def isLeap (y : Int) : Bool :=
  y % 4 = 0 && (y % 100 ≠ 0 || y % 400 = 0)

/-- Length of a month, as `datetime` validates the day argument. -/
def daysInMonth (y m : Int) : Int :=
  if m = 1 ∨ m = 3 ∨ m = 5 ∨ m = 7 ∨ m = 8 ∨ m = 10 ∨ m = 12 then 31
  else if m = 4 ∨ m = 6 ∨ m = 9 ∨ m = 11 then 30
  else if isLeap y then 29 else 28

/-- Days since 1970-01-01 of a civil date (standard days-from-civil
algorithm with truncating division, as in the C++/CPython sources). -/
def daysFromCivil (y m d : Int) : Int :=
  let y' := if m ≤ 2 then y - 1 else y
  let era := (if 0 ≤ y' then y' else y' - 399) / 400
  let yoe := y' - era * 400
  let mp := (m + 9) % 12
  let doy := (153 * mp + 2) / 5 + d - 1
  let doe := yoe * 365 + yoe / 4 - yoe / 100 + doy
  era * 146097 + doe - 719468

/-- `datetime(year, month, day, tzinfo=KST)`: KST timestamps are modelled
as seconds relative to the epoch on a KST-local scale, so a midnight
civil date maps to `86400 *` its day number; invalid arguments (`none`)
model the `ValueError` raise. -/
def mkDatetimeKST (y m d : Int) : Option Int :=
  if 1 ≤ y ∧ y ≤ 9999 ∧ 1 ≤ m ∧ m ≤ 12 ∧ 1 ≤ d ∧ d ≤ daysInMonth y m then
    some (86400 * daysFromCivil y m d)
  else none

/-- The `"스트리밍 시간:"` prefix stripped at lines 399-400. -/
def streamingPref : List Char := "스트리밍 시간:".toList

/-- `parse_upload_date` (src/youtube_scraper_utils.py lines 385-442) with
`datetime.now(KST)` supplied as the `now` argument.  Relative phrases
subtract the matching unit; otherwise the Korean then the English absolute
date pattern is tried — the English branch constructs
`datetime(int(year), int(day), month)` exactly as line 438 does, passing
the day where `datetime` expects the month; any construction error falls
back to `now`, as does a text with no digits or no recognised pattern. -/
def parse_upload_date (now : Int) (text : List Char) : Int :=
  if text = [] then now
  else
    let t := if containsSub streamingPref text then
      stripList (replaceAll streamingPref [] text) else text
    match firstNumber t with
    | none => now
    | some value =>
      let v : Int := value
      if containsSub "분 전".toList t ||
          containsSub "minutes ago".toList t then now - v * 60
      else if containsSub "시간 전".toList t ||
          containsSub "hours ago".toList t then now - v * 3600
      else if containsSub "일 전".toList t ||
          containsSub "days ago".toList t then now - v * 86400
      else if containsSub "주 전".toList t ||
          containsSub "weeks ago".toList t then now - v * 604800
      else if containsSub "개월 전".toList t ||
          containsSub "months ago".toList t then now - v * 2592000
      else if containsSub "년 전".toList t ||
          containsSub "years ago".toList t then now - v * 31536000
      else
        match koreanDateSearch t with
        | some (y, m, d) =>
          match mkDatetimeKST y m d with
          | some ts => ts
          | none => now
        | none =>
          match engDateSearch t with
          | some (mon, d, y) =>
            match mkDatetimeKST (Int.ofNat y) (Int.ofNat d)
                (Int.ofNat (monthLookup mon)) with
            | some ts => ts
            | none => now
          | none => now

/-- Python `line.replace(pat, rep, 1)`: first occurrence only. -/
def replaceFirst (pat rep : List Char) : List Char → List Char
  | [] => []
  | c :: rest =>
    if pat ≠ [] ∧ isPre pat (c :: rest) = true then
      rep ++ (c :: rest).drop pat.length
    else c :: replaceFirst pat rep rest

/-- `'\n'.join(lines)`. -/
def joinLines : List (List Char) → List Char
  | [] => []
  | [l] => l
  | l :: rest => l ++ '\n' :: joinLines rest

/-- Body of the `clean_markdown_format` loop
(src/gemini_analyzer.py lines 161-181), carrying the previous original
line for the `lines[i-1]` lookahead; `rest` exposes `lines[i+1]`. -/
def cleanLinesAux : Option (List Char) → List (List Char) → List (List Char)
  | _, [] => []
  | prev, line :: rest =>
    let line' := if isPre "* ".toList (stripList line) then
      replaceFirst "* ".toList "- ".toList line else line
    let prevFilled : Bool := match prev with
      | some p => !(stripList p).isEmpty
      | none => false
    let nextOk : Bool := match rest with
      | next :: _ => !(stripList next).isEmpty && !(isPre "#".toList next)
      | [] => false
    (if isPre "#".toList line' && prevFilled then [([] : List Char)]
     else []) ++
    [line'] ++
    (if isPre "#".toList line' && nextOk then [([] : List Char)]
     else []) ++
    cleanLinesAux (some line) rest

/-- `clean_markdown_format` (src/gemini_analyzer.py lines 159-181). -/
def clean_markdown_format (text : List Char) : List Char :=
  joinLines (cleanLinesAux none (splitOnChar '\n' text))

/-- The `# [분석 오류]` report header used by every error return of
`analyze_script_with_gemini`. -/
def analysisErrorHeader (programName : List Char) : List Char :=
  "# [분석 오류] ".toList ++ programName ++
    " - 주식 종목 분석 보고서\n\n## 오류 내용\n\n".toList

/-- Post-processing of the collected Gemini response
(src/gemini_analyzer.py lines 134-152): a response embedding the error
markers `분석 오류` or `오류 내용` is returned unchanged; otherwise the
report header is prepended when missing and the markdown is cleaned; an
empty response yields an error report. -/
def gemini_post (programName response : List Char) : List Char :=
  if response ≠ [] then
    if containsSub "분석 오류".toList response ||
        containsSub "오류 내용".toList response then response
    else
      clean_markdown_format
        (if isPre "# ".toList response then response
         else "# ".toList ++ programName ++
           " - 주식 종목 분석 보고서\n\n".toList ++ response)
  else analysisErrorHeader programName ++
    "Gemini API가 응답을 생성하지 못했습니다.".toList

/-- A record-store operation performed by `process_channel`, in order:
the exact-URL dedup lookup (`check_script_exists`), the 5-day recency
lookup (`check_recent_scripts_for_title`), the Capture Record write
(`create_script_report_page`, with its success flag), and the
activation-flag clear (`update_notion_page` with `활성화 = False`). -/
inductive StoreOp where
  | checkUrl (url : List Char)
  | checkRecent (keyword url : List Char)
  | create (url content : List Char) (ok : Bool)
  | deactivate (pageId : List Char)
deriving DecidableEq, Repr

/-- A Channel Record page as `process_channel` reads it: the `활성화`
checkbox, the `제목` title text, the `URL` property and the `채널명`
select, each `none` when missing. -/
structure ChannelPage where
  pageId : List Char
  activeCheckbox : Option Bool
  titleText : Option (List Char)
  urlProp : Option (List Char)
  selectName : Option (List Char)
deriving DecidableEq, Repr

/-- Results of the external collaborators consulted by one
`process_channel` run: channel-id resolution, the API-side latest-video
search, the two dedup lookups, the two transcript attempts (`none` models
the raised exception), ISO parsing of the upload date, the analysis call
(`Except.error` models a raised exception), and the record-store write
outcome. -/
structure PCWorld where
  channelId : Option (List Char)
  latestVideo : Option Video
  scriptExists : Bool
  recentExists : Bool
  transcriptKo : Option (List Char)
  transcriptAuto : Option (List Char)
  uploadDateOk : Bool
  analysis : Except (List Char) (List Char)
  createOk : Bool
deriving Repr

/-- The content body persisted by `process_channel`: the analysis text on
success, the fallback error report of lines 196-197 when the analysis
call raised. -/
def analysisContent (w : PCWorld) : List Char :=
  match w.analysis with
  | .ok a => a
  | .error e =>
    "# AI 분석 보고서\n\n## 분석 오류\n\n분석 과정에서 오류가 발생했습니다: ".toList
      ++ e

/-- The stripped `제목` keyword read at lines 42-46 (missing treated as
empty). -/
def pageKeyword (page : ChannelPage) : List Char :=
  match page.titleText with
  | some t => stripList t
  | none => []

/-- The `URL` property read at lines 48-52 (missing treated as empty). -/
def pageUrl (page : ChannelPage) : List Char :=
  page.urlProp.getD []

/-- `process_channel` (src/scheduler.py lines 24-221): returns the boolean
the coroutine returns together with the ordered record-store operations it
performed.  Every guard failure before the dedup checks — inactive page,
missing URL/keyword, non-YouTube URL, unresolved channel id, no candidate,
or a live/upcoming candidate (lines 84-88) — returns `False` having
touched nothing. -/
def process_channel (page : ChannelPage) (w : PCWorld) :
    Bool × List StoreOp :=
  if !(page.activeCheckbox.getD false) then (false, [])
  else
    let keyword := pageKeyword page
    let channelUrl := pageUrl page
    if channelUrl = [] ∨ keyword = [] then (false, [])
    else if !containsSub "youtube.com/".toList channelUrl then (false, [])
    else
      match w.channelId with
      | none => (false, [])
      | some _ =>
        match w.latestVideo with
        | none => (false, [])
        | some video =>
          if video.is_upcoming || video.is_live then (false, [])
          else if w.scriptExists then (false, [.checkUrl video.url])
          else if w.recentExists then
            (false, [.checkUrl video.url, .checkRecent keyword video.url])
          else
            let preOps : List StoreOp :=
              [.checkUrl video.url, .checkRecent keyword video.url]
            match (match w.transcriptKo with
              | some t => some t
              | none => w.transcriptAuto) with
            | none => (false, preOps)
            | some script =>
              if script = [] ∨ (stripList script).length < 100 then
                (false, preOps)
              else if !w.uploadDateOk then (false, preOps)
              else if w.createOk then
                (true, preOps ++
                  [.create video.url (analysisContent w) true,
                   .deactivate page.pageId])
              else
                (false, preOps ++
                  [.create video.url (analysisContent w) false])

/-- A Channel Record as the eligibility filter of
`process_channels_by_setting` reads it: the `활성화` checkbox and the
`시간` number property. -/
structure RefChannel where
  activeCheckbox : Option Bool
  hourSetting : Option Int
deriving DecidableEq, Repr

/-- Effective polling hour (src/scheduler.py lines 256-264): default 9
when the property is absent, reset to 9 when outside 0-23. -/
def effectiveHour (setting : Option Int) : Int :=
  let h := setting.getD 9
  if h < 0 ∨ h > 23 then 9 else h

/-- Eligibility of one channel at `currentHour`
(src/scheduler.py lines 247-270): active and within the 3-hour window
after its configured hour, computed modulo 24. -/
def channelEligible (currentHour : Int) (c : RefChannel) : Bool :=
  if !(c.activeCheckbox.getD false) then false
  else decide ((currentHour - effectiveHour c.hourSetting) % 24 ≤ 3)

/-- The `time_relevant_channels` selection loop of
`process_channels_by_setting` (lines 242-276). -/
def timeRelevantChannels (currentHour : Int) (pages : List RefChannel) :
    List RefChannel :=
  pages.filter (channelEligible currentHour)

theorem insertVideo_perm (v : Video) (l : List Video) :
    (insertVideo v l).Perm (v :: l) := by
  induction l with
  | nil => simp [insertVideo]
  | cons w ws ih =>
    rw [insertVideo]
    split
    · exact (ih.cons w).trans (List.Perm.swap v w ws)
    · exact List.Perm.refl _

theorem sortVideos_perm (l : List Video) : (sortVideos l).Perm l := by
  induction l with
  | nil => simp [sortVideos]
  | cons v vs ih =>
    exact (insertVideo_perm v (sortVideos vs)).trans (ih.cons v)

/-- C6: an active channel configured for hour H (default 9 when unset or
out of range) is eligible at hour h exactly when `(h − H) mod 24 ≤ 3`;
hour 9 is eligible at 12, ineligible at 13, and the window wraps around
midnight (hour 23 is still eligible at 1). -/
theorem claim_C6_eligibility_window :
    (∀ (h : Int) (c : RefChannel) (pages : List RefChannel),
      c ∈ timeRelevantChannels h pages ↔
        c ∈ pages ∧ c.activeCheckbox.getD false = true ∧
          (h - (match c.hourSetting with
            | none => 9
            | some n => if n < 0 ∨ 23 < n then 9 else n)) % 24 ≤ 3) ∧
    channelEligible 12 ⟨some true, some 9⟩ = true ∧
    channelEligible 13 ⟨some true, some 9⟩ = false ∧
    channelEligible 1 ⟨some true, some 23⟩ = true := by
  refine ⟨?_, by decide, by decide, by decide⟩
  intro h c pages
  have heff : effectiveHour c.hourSetting =
      (match c.hourSetting with
        | none => 9
        | some n => if n < 0 ∨ 23 < n then 9 else n) := by
    cases c.hourSetting with
    | none => simp [effectiveHour]
    | some n => simp [effectiveHour, Option.getD, gt_iff_lt]
  rw [timeRelevantChannels, List.mem_filter, channelEligible, heff]
  cases hA : c.activeCheckbox.getD false <;> simp [hA]

/-- C7: when exactly one keyword-matching candidate is flagged live, the
Candidate Selector returns that candidate, whatever its position and
whatever the other candidates' durations — both on the raw candidate list
and after the parser's live-first stable sort. -/
theorem claim_C7_unique_live_selected (videos : List Video) (v : Video)
    (h : videos.filter (fun x => x.is_live) = [v]) :
    selectVideo videos = some v ∧
      selectVideo (sortVideos videos) = some v := by
  constructor
  · simp only [selectVideo, h]
  · have hs : (sortVideos videos).filter (fun x => x.is_live) = [v] :=
      List.perm_singleton.mp (h ▸ (sortVideos_perm videos).filter _)
    simp only [selectVideo, hs]

/-- Witness for C7 at a three-element listing with the unique live item in
the middle. -/
theorem claim_C7_unique_live_selected_witness :
    selectVideo
      [⟨"a".toList, "ua".toList, "a".toList, [], false, false, [], 500⟩,
       ⟨"b".toList, "ub".toList, "b".toList, [], false, true, [], 0⟩,
       ⟨"c".toList, "uc".toList, "c".toList, [], true, false, [], 0⟩] =
      some ⟨"b".toList, "ub".toList, "b".toList, [], false, true, [], 0⟩ :=
  (claim_C7_unique_live_selected _ _ (by decide)).1

/-- C8: when every keyword-matching candidate is a normal item shorter
than 300 seconds (no live, no upcoming), the Candidate Selector returns no
candidate at all. -/
theorem claim_C8_subfloor_never_selected (videos : List Video)
    (h : ∀ v ∈ videos, v.is_live = false ∧ v.is_upcoming = false ∧
      v.duration_seconds < 300) :
    selectVideo videos = none := by
  have hlive : videos.filter (fun x => x.is_live) = [] :=
    List.filter_eq_nil_iff.mpr fun v hv => by simp [(h v hv).1]
  have hupc : videos.filter (fun x => x.is_upcoming) = [] :=
    List.filter_eq_nil_iff.mpr fun v hv => by simp [(h v hv).2.1]
  have hnorm : (videos.filter fun x => !x.is_live && !x.is_upcoming).filter
      (fun x => x.duration_seconds ≥ 300) = [] := by
    refine List.filter_eq_nil_iff.mpr fun v hv => ?_
    have hmem := (List.mem_filter.mp hv).1
    have := (h v hmem).2.2
    simp
    omega
  simp only [selectVideo, hlive, hupc, hnorm]

/-- Witness for C8 at a one-element listing holding a 200-second normal
clip. -/
theorem claim_C8_subfloor_never_selected_witness :
    selectVideo
      [⟨"clip".toList, "uc".toList, "c".toList, [], false, false,
        "3:20".toList, 200⟩] = none :=
  claim_C8_subfloor_never_selected _ (by decide)

/-- C9: `parse_duration_from_text` splits on `":"` into 1-3 numeric
components read as seconds, minutes:seconds or hours:minutes:seconds
(`"1:30:45"` gives 5445), and malformed input — a component `int()`
rejects, or more than three components — yields 0. -/
theorem claim_C9_parse_duration :
    parse_duration_from_text "1:30:45".toList = 5445 ∧
    parse_duration_from_text "garbage".toList = 0 ∧
    (∀ s a, splitOnChar ':' s = [a] → ∀ n, pyInt a = some n →
      parse_duration_from_text s = n) ∧
    (∀ s a b, splitOnChar ':' s = [a, b] → ∀ n m, pyInt a = some n →
      pyInt b = some m → parse_duration_from_text s = n * 60 + m) ∧
    (∀ s a b c, splitOnChar ':' s = [a, b, c] → ∀ n m k, pyInt a = some n →
      pyInt b = some m → pyInt c = some k →
      parse_duration_from_text s = n * 3600 + m * 60 + k) ∧
    (∀ s, 3 < (splitOnChar ':' s).length → parse_duration_from_text s = 0) ∧
    (∀ s a, a ∈ splitOnChar ':' s → pyInt a = none →
      parse_duration_from_text s = 0) := by
  refine ⟨by decide, by decide, ?_, ?_, ?_, ?_, ?_⟩
  · intro s a hs n hn
    simp [parse_duration_from_text, hs, hn]
  · intro s a b hs n m hn hm
    simp [parse_duration_from_text, hs, hn, hm]
  · intro s a b c hs n m k hn hm hk
    simp [parse_duration_from_text, hs, hn, hm, hk]
  · intro s hlen
    rcases hs : splitOnChar ':' s with _ | ⟨a, _ | ⟨b, _ | ⟨c, _ | ⟨d, e⟩⟩⟩⟩ <;>
      rw [hs] at hlen <;> simp at hlen
    simp [parse_duration_from_text, hs]
  · intro s a hmem hnone
    rcases hs : splitOnChar ':' s with _ | ⟨x, _ | ⟨y, _ | ⟨z, _ | ⟨u, e⟩⟩⟩⟩
    · rw [hs] at hmem; simp at hmem
    · rw [hs] at hmem; simp at hmem
      subst hmem
      simp [parse_duration_from_text, hs, hnone]
    · rw [hs] at hmem; simp at hmem
      rcases hmem with h1 | h1 <;> rw [h1] at hnone <;>
        cases hx : pyInt x <;> cases hy : pyInt y <;>
        simp_all [parse_duration_from_text, hs]
    · rw [hs] at hmem; simp at hmem
      rcases hmem with h1 | h1 | h1 <;> rw [h1] at hnone <;>
        cases hx : pyInt x <;> cases hy : pyInt y <;> cases hz : pyInt z <;>
        simp_all [parse_duration_from_text, hs]
    · simp [parse_duration_from_text, hs]

/-- Witness for C9 on the general components at `"90"`, `"2:05"` and
`"1:30:45"`, and the malformed inputs `"1:2:3:4"` and `"1:x"`. -/
theorem claim_C9_parse_duration_witness :
    parse_duration_from_text "90".toList = 90 ∧
    parse_duration_from_text "2:05".toList = 125 ∧
    parse_duration_from_text "1:30:45".toList = 5445 ∧
    parse_duration_from_text "1:2:3:4".toList = 0 ∧
    parse_duration_from_text "1:x".toList = 0 :=
  ⟨claim_C9_parse_duration.2.2.1 "90".toList "90".toList (by decide) 90
     (by decide),
   claim_C9_parse_duration.2.2.2.1 "2:05".toList "2".toList "05".toList
     (by decide) 2 5 (by decide) (by decide),
   claim_C9_parse_duration.2.2.2.2.1 "1:30:45".toList "1".toList
     "30".toList "45".toList (by decide) 1 30 45 (by decide) (by decide)
     (by decide),
   claim_C9_parse_duration.2.2.2.2.2.1 "1:2:3:4".toList (by decide),
   claim_C9_parse_duration.2.2.2.2.2.2 "1:x".toList "x".toList (by decide)
     (by decide)⟩

/-- C10: `find_latest_video_by_scraping` terminates with at most
`2 × max_retries` fetch attempts, because the `/streams`→`/videos`
substitution leaves a URL with no occurrence of `/streams`, so the
recursive fallback call cannot trigger a further fallback. -/
theorem claim_C10_fallback_once_bounded
    (fetch : List Char → Nat → FetchResult) (keyword : List Char)
    (maxRetries : Nat) (url : List Char) :
    (find_latest_video_by_scraping fetch keyword maxRetries url).2 ≤
      2 * maxRetries ∧
    containsSub streamsPath
      (replaceAll streamsPath videosPath (adjustUrl url)) = false := by
  refine ⟨?_, replFree _⟩
  rw [find_latest_video_by_scraping]
  have hc := scrapeLoop_count_le fetch (adjustUrl url) keyword maxRetries 0
  rcases hres : scrapeLoop fetch (adjustUrl url) keyword maxRetries 0 with
    ⟨res, n⟩
  rw [hres] at hc
  simp only at hc
  cases res with
  | found v => simp; omega
  | noLoop => simp; omega
  | giveUp =>
    by_cases hs : containsSub streamsPath (adjustUrl url) = true
    · simp only [hs, if_true]
      have h2 : (find_latest_video_by_scraping fetch keyword maxRetries
          (replaceAll streamsPath videosPath (adjustUrl url))).2 ≤
          maxRetries := by
        apply flvbs_count_le_of_no_streams
        rw [adjustUrl_noop_of_videos _ (replace_has_videos _ hs)]
        exact replFree _
      simp
      omega
    · simp only [Bool.not_eq_true] at hs
      simp [hs]
      omega

theorem overlayFlags_spec (styles : List (List Char)) : ∀ up live : Bool,
    overlayFlags styles up live =
      (up || styles.any (fun s => s == "UPCOMING".toList),
       live || styles.any (fun s => s == "LIVE".toList)) := by
  induction styles with
  | nil => intro up live; simp [overlayFlags]
  | cons st rest ih =>
    intro up live
    rw [overlayFlags]
    by_cases h1 : st = "UPCOMING".toList
    · subst h1
      rw [if_pos rfl, ih]
      simp only [List.any_cons]
      rw [show ("UPCOMING".toList == "UPCOMING".toList) = true from by decide,
        show ("UPCOMING".toList == "LIVE".toList) = false from by decide]
      simp
    · rw [if_neg h1]
      by_cases h2 : st = "LIVE".toList
      · subst h2
        rw [if_pos rfl, ih]
        simp only [List.any_cons]
        rw [show ("LIVE".toList == "UPCOMING".toList) = false from by decide,
          show ("LIVE".toList == "LIVE".toList) = true from by decide]
        simp
      · rw [if_neg h2, ih]
        simp only [List.any_cons]
        rw [beq_eq_false_iff_ne.mpr h1, beq_eq_false_iff_ne.mpr h2]
        simp

theorem badgeLive_spec (styles : List (List Char)) : ∀ live : Bool,
    badgeLive styles live =
      (live || styles.any
        (fun s => s == "BADGE_STYLE_TYPE_LIVE_NOW".toList)) := by
  induction styles with
  | nil => intro live; simp [badgeLive]
  | cons st rest ih =>
    intro live
    rw [badgeLive]
    by_cases h1 : st = "BADGE_STYLE_TYPE_LIVE_NOW".toList
    · subst h1
      rw [if_pos rfl, ih]
      simp only [List.any_cons]
      rw [show ("BADGE_STYLE_TYPE_LIVE_NOW".toList ==
          "BADGE_STYLE_TYPE_LIVE_NOW".toList) = true from by decide]
      simp
    · rw [if_neg h1, ih]
      simp only [List.any_cons]
      rw [beq_eq_false_iff_ne.mpr h1]
      simp

theorem extractVideoItem_flags (kw : List Char) (r : VideoRenderer)
    (v : Video) (h : extractVideoItem kw r = some v) :
    v.is_upcoming = r.overlayStyles.any (fun s => s == "UPCOMING".toList) ∧
    v.is_live = (badgeLive r.badgeStyles false ||
      r.overlayStyles.any (fun s => s == "LIVE".toList)) := by
  rw [extractVideoItem, overlayFlags_spec] at h
  dsimp only at h
  rw [mkVideo.eq_def] at h
  split at h
  · obtain rfl := (Option.some.injEq _ _).mp h
    simp
  · exact absurd h (by simp)

theorem extractGridItem_flags (kw : List Char) (r : GridVideoRenderer)
    (v : Video) (h : extractGridItem kw r = some v) :
    v.is_upcoming = r.overlayStyles.any (fun s => s == "UPCOMING".toList) ∧
    v.is_live = r.overlayStyles.any (fun s => s == "LIVE".toList) := by
  rw [extractGridItem, overlayFlags_spec] at h
  dsimp only at h
  rw [mkVideo.eq_def] at h
  split at h
  · obtain rfl := (Option.some.injEq _ _).mp h
    simp
  · exact absurd h (by simp)

/-- A `videoRenderer` carrying both a LIVE_NOW badge and an UPCOMING
thumbnail overlay, matching the keyword `테스트`. -/
def conflictRenderer : VideoRenderer :=
  { titleRuns := ["테스트 충돌".toList], videoId := "x1".toList,
    publishedTimeText := none,
    badgeStyles := ["BADGE_STYLE_TYPE_LIVE_NOW".toList],
    overlayStyles := ["UPCOMING".toList], lengthText := none }

/-- A listing whose only item is `conflictRenderer`. -/
def conflictListing : ListingData :=
  .browseTabs [some (.sectionList [some [.video conflictRenderer]])]

/-- C3 counterexample: a renderer with a live badge and an UPCOMING
overlay yields a Candidate Item with `is_live` and `is_upcoming` both
true — the at-most-one-flag invariant fails on the parser's output. -/
theorem claim_C3_counterexample :
    (find_videos_with_keyword conflictListing "테스트".toList).map
      (fun v => (v.is_live, v.is_upcoming)) = [(true, true)] := by decide

/-- C3 amended: the flags of a Candidate Item are computed independently —
`is_upcoming` holds iff some overlay has style UPCOMING, `is_live` iff a
live badge or some overlay has style LIVE (grid renderers carry no
badges) — so a renderer without conflicting markers yields at most one
flag, while one with both markers yields both; an item with neither flag
belongs to the selector's normal partition. -/
theorem claim_C3_amended_flag_semantics :
    (∀ (kw : List Char) (r : VideoRenderer) (v : Video),
      extractVideoItem kw r = some v →
      v.is_upcoming = r.overlayStyles.any (fun s => s == "UPCOMING".toList) ∧
      v.is_live = (badgeLive r.badgeStyles false ||
        r.overlayStyles.any (fun s => s == "LIVE".toList))) ∧
    (∀ (kw : List Char) (r : GridVideoRenderer) (v : Video),
      extractGridItem kw r = some v →
      v.is_upcoming = r.overlayStyles.any (fun s => s == "UPCOMING".toList) ∧
      v.is_live = r.overlayStyles.any (fun s => s == "LIVE".toList)) ∧
    (∀ (kw : List Char) (r : VideoRenderer) (v : Video),
      extractVideoItem kw r = some v →
      badgeLive r.badgeStyles false = false →
      (r.overlayStyles.any (fun s => s == "UPCOMING".toList) &&
        r.overlayStyles.any (fun s => s == "LIVE".toList)) = false →
      (v.is_live && v.is_upcoming) = false) ∧
    (∀ (videos : List Video) (v : Video), v ∈ videos → v.is_live = false →
      v.is_upcoming = false →
      v ∈ videos.filter (fun x => !x.is_live && !x.is_upcoming)) := by
  refine ⟨extractVideoItem_flags, extractGridItem_flags, ?_, ?_⟩
  · intro kw r v h hbadge hover
    obtain ⟨hu, hl⟩ := extractVideoItem_flags kw r v h
    rw [hu, hl, hbadge, Bool.false_or, Bool.and_comm]
    exact hover
  · intro videos v hv h1 h2
    exact List.mem_filter.mpr ⟨hv, by simp [h1, h2]⟩

/-- Witness for C3's amended flag semantics, at a single-overlay live
renderer. -/
theorem claim_C3_amended_flag_semantics_witness :
    (Video.is_upcoming
        ⟨"테스트 a".toList, "https://www.youtube.com/watch?v=w1".toList,
          "w1".toList, [], false, true, "Unknown".toList, 0⟩ = false ∧
      Video.is_live
        ⟨"테스트 a".toList, "https://www.youtube.com/watch?v=w1".toList,
          "w1".toList, [], false, true, "Unknown".toList, 0⟩ = true) ∧
    (Video.is_live
        ⟨"테스트 a".toList, "https://www.youtube.com/watch?v=w1".toList,
          "w1".toList, [], false, true, "Unknown".toList, 0⟩ &&
      Video.is_upcoming
        ⟨"테스트 a".toList, "https://www.youtube.com/watch?v=w1".toList,
          "w1".toList, [], false, true, "Unknown".toList, 0⟩) = false := by
  have hr : extractVideoItem "테스트".toList
      ⟨["테스트 a".toList], "w1".toList, none, [],
        ["LIVE".toList], none⟩ =
      some ⟨"테스트 a".toList,
        "https://www.youtube.com/watch?v=w1".toList, "w1".toList, [],
        false, true, "Unknown".toList, 0⟩ := by decide
  refine ⟨?_, ?_⟩
  · have h := claim_C3_amended_flag_semantics.1 _ _ _ hr
    exact ⟨by rw [h.1]; decide, by rw [h.2]; decide⟩
  · exact claim_C3_amended_flag_semantics.2.2.1 _ _ _ hr (by decide)
      (by decide)

/-- C4 counterexample: `"Mar 13, 2024"` matches the English absolute-date
pattern and contains no relative-unit phrase, yet `parse_upload_date`
returns `now` (here 1700000000) rather than the KST datetime of
2024-03-13 (day 19795 of the epoch). -/
theorem claim_C4_counterexample :
    parse_upload_date 1700000000 "Mar 13, 2024".toList = 1700000000 ∧
    mkDatetimeKST 2024 3 13 = some (86400 * 19795) ∧
    (1700000000 : Int) ≠ 86400 * 19795 := by decide

/-- C4 amended: line 438 passes the parsed day where `datetime` expects
the month, so for `Mon D, YYYY` with D ≤ 12 the result is the KST date
(YYYY, D, month-number-of-Mon) — `"Mar 5, 2024"` gives 2024-05-03 — and
with D > 12 the construction raises and `now` is returned, as for
`"Mar 13, 2024"`. -/
theorem claim_C4_amended_swapped_eng_date (now : Int) :
    parse_upload_date now "Mar 13, 2024".toList = now ∧
    parse_upload_date now "Mar 5, 2024".toList =
      86400 * daysFromCivil 2024 5 3 ∧
    engDateSearch "Mar 13, 2024".toList = some ("Mar".toList, 13, 2024) ∧
    monthLookup "Mar".toList = 3 ∧
    mkDatetimeKST 2024 13 3 = none := by
  exact ⟨rfl, rfl, by decide, by decide, by decide⟩

/-- The live item of the spec's end-to-end scenario: a `videoRenderer`
titled `테스트 방송` carrying a LIVE_NOW badge. -/
def testLiveRenderer : VideoRenderer :=
  { titleRuns := ["테스트 방송".toList], videoId := "live1".toList,
    publishedTimeText := none,
    badgeStyles := ["BADGE_STYLE_TYPE_LIVE_NOW".toList],
    overlayStyles := [], lengthText := none }

/-- The 200-second normal item of the scenario, titled `테스트 클립`. -/
def testClipRenderer : VideoRenderer :=
  { titleRuns := ["테스트 클립".toList], videoId := "clip1".toList,
    publishedTimeText := some "3일 전".toList, badgeStyles := [],
    overlayStyles := [], lengthText := some "3:20".toList }

/-- The mocked listing of the end-to-end scenario. -/
def testListing : ListingData :=
  .browseTabs [some (.sectionList
    [some [.video testLiveRenderer, .video testClipRenderer]])]

/-- The Candidate Item the parser produces from `testLiveRenderer`. -/
def testLiveVideo : Video :=
  ⟨"테스트 방송".toList,
    "https://www.youtube.com/watch?v=live1".toList, "live1".toList, [],
    false, true, "Unknown".toList, 0⟩

/-- The Candidate Item the parser produces from `testClipRenderer`. -/
def testClipVideo : Video :=
  ⟨"테스트 클립".toList,
    "https://www.youtube.com/watch?v=clip1".toList, "clip1".toList,
    "3일 전".toList, false, false, "3:20".toList, 200⟩

/-- An active Channel Record with keyword `테스트`. -/
def testPage : ChannelPage :=
  { pageId := "page1".toList, activeCheckbox := some true,
    titleText := some "테스트".toList,
    urlProp := some "https://www.youtube.com/@chan".toList,
    selectName := some "채널".toList }

/-- A transcript long enough to pass the 100-character floor. -/
def testScript : List Char := List.replicate 120 'a'

/-- Collaborator results when the selected candidate is the live item and
every downstream step would succeed. -/
def wLiveRun : PCWorld :=
  { channelId := some "UC1".toList,
    latestVideo := selectVideo
      (find_videos_with_keyword testListing "테스트".toList),
    scriptExists := false, recentExists := false,
    transcriptKo := some testScript, transcriptAuto := none,
    uploadDateOk := true, analysis := .ok "# 보고서".toList,
    createOk := true }

/-- Collaborator results for a clean capture of the normal clip. -/
def wNormSucc : PCWorld :=
  { channelId := some "UC1".toList, latestVideo := some testClipVideo,
    scriptExists := false, recentExists := false,
    transcriptKo := some testScript, transcriptAuto := none,
    uploadDateOk := true, analysis := .ok "# 보고서".toList,
    createOk := true }

/-- As `wNormSucc` but the record-store write fails. -/
def wNormFail : PCWorld :=
  { channelId := some "UC1".toList, latestVideo := some testClipVideo,
    scriptExists := false, recentExists := false,
    transcriptKo := some testScript, transcriptAuto := none,
    uploadDateOk := true, analysis := .ok "# 보고서".toList,
    createOk := false }

/-- Shared commit-point lemma: once every guard up to the transcript and
date steps passes for a non-live, non-upcoming candidate, the pipeline
writes the Capture Record (URL of the candidate, content of the analysis
step) and deactivates the channel exactly when the write succeeded; a
failed write leaves the trace without any deactivation. -/
theorem process_channel_capture (page : ChannelPage) (w : PCWorld)
    (v : Video) (script : List Char)
    (hact : page.activeCheckbox.getD false = true)
    (hkw : pageKeyword page ≠ [])
    (hurl : pageUrl page ≠ [])
    (hyt : containsSub "youtube.com/".toList (pageUrl page) = true)
    (hcid : w.channelId.isSome = true)
    (hv : w.latestVideo = some v)
    (hlive : v.is_live = false) (hupc : v.is_upcoming = false)
    (hse : w.scriptExists = false) (hre : w.recentExists = false)
    (htr : (match w.transcriptKo with
      | some t => some t
      | none => w.transcriptAuto) = some script)
    (hs1 : script ≠ []) (hs2 : ¬(stripList script).length < 100)
    (hdate : w.uploadDateOk = true) :
    (w.createOk = true → process_channel page w =
      (true, [.checkUrl v.url, .checkRecent (pageKeyword page) v.url,
        .create v.url (analysisContent w) true,
        .deactivate page.pageId])) ∧
    (w.createOk = false → process_channel page w =
      (false, [.checkUrl v.url, .checkRecent (pageKeyword page) v.url,
        .create v.url (analysisContent w) false])) := by
  obtain ⟨cid, hcid'⟩ := Option.isSome_iff_exists.mp hcid
  constructor
  · intro hcreate
    simp [process_channel, hact, hkw, hurl, hyt, hcid', hv, hlive, hupc,
      hse, hre, htr, hs1, hs2, hdate, hcreate]
    exact hyt
  · intro hcreate
    simp [process_channel, hact, hkw, hurl, hyt, hcid', hv, hlive, hupc,
      hse, hre, htr, hs1, hs2, hdate, hcreate]
    exact hyt

/-- C5: the exact-URL lookup runs strictly before the 5-day recency
lookup, and either veto makes the per-channel pipeline return failure with
no Capture Record write and no activation-flag change. -/
theorem claim_C5_dedup_order (page : ChannelPage) (w : PCWorld) (v : Video)
    (hact : page.activeCheckbox.getD false = true)
    (hkw : pageKeyword page ≠ [])
    (hurl : pageUrl page ≠ [])
    (hyt : containsSub "youtube.com/".toList (pageUrl page) = true)
    (hcid : w.channelId.isSome = true)
    (hv : w.latestVideo = some v)
    (hlive : v.is_live = false) (hupc : v.is_upcoming = false) :
    (w.scriptExists = true →
      process_channel page w = (false, [.checkUrl v.url])) ∧
    (w.scriptExists = false → w.recentExists = true →
      process_channel page w = (false,
        [.checkUrl v.url, .checkRecent (pageKeyword page) v.url])) := by
  obtain ⟨cid, hcid'⟩ := Option.isSome_iff_exists.mp hcid
  constructor
  · intro hse
    simp [process_channel, hact, hkw, hurl, hyt, hcid', hv, hlive, hupc,
      hse]
    exact hyt
  · intro hse hre
    simp [process_channel, hact, hkw, hurl, hyt, hcid', hv, hlive, hupc,
      hse, hre]
    exact hyt

/-- As `wNormSucc` but the candidate's URL is already referenced by a
Capture Record. -/
def wDedupUrl : PCWorld :=
  { channelId := some "UC1".toList, latestVideo := some testClipVideo,
    scriptExists := true, recentExists := false,
    transcriptKo := some testScript, transcriptAuto := none,
    uploadDateOk := true, analysis := .ok "# 보고서".toList,
    createOk := true }

/-- As `wNormSucc` but the (keyword, URL) pair appears within the 5-day
recency window. -/
def wDedupRecent : PCWorld :=
  { channelId := some "UC1".toList, latestVideo := some testClipVideo,
    scriptExists := false, recentExists := true,
    transcriptKo := some testScript, transcriptAuto := none,
    uploadDateOk := true, analysis := .ok "# 보고서".toList,
    createOk := true }

/-- Witness for C5 on the concrete scenario, under each veto. -/
theorem claim_C5_dedup_order_witness :
    process_channel testPage wDedupUrl =
      (false, [.checkUrl testClipVideo.url]) ∧
    process_channel testPage wDedupRecent =
      (false, [.checkUrl testClipVideo.url,
        .checkRecent (pageKeyword testPage) testClipVideo.url]) :=
  ⟨(claim_C5_dedup_order testPage wDedupUrl testClipVideo (by decide)
      (by decide) (by decide) (by decide) (by decide) rfl rfl rfl).1 rfl,
   (claim_C5_dedup_order testPage wDedupRecent testClipVideo (by decide)
      (by decide) (by decide) (by decide) (by decide) rfl rfl rfl).2 rfl
      rfl⟩

/-- C1 counterexample: on the spec's end-to-end scenario (keyword
`테스트`, one live item, one 200-second normal item) the Candidate
Selector does pick the live item, but `process_channel` then returns
failure without writing any Capture Record and without touching the
activation flag — even though the store write would have succeeded —
because lines 84-88 defer live and upcoming candidates. -/
theorem claim_C1_counterexample :
    (selectVideo (find_videos_with_keyword testListing "테스트".toList)).map
      (fun v => (v.url, v.is_live)) =
      some ("https://www.youtube.com/watch?v=live1".toList, true) ∧
    process_channel testPage wLiveRun = (false, []) := by decide

/-- C1 amended: the pipeline selects the live item but defers it — any
run whose candidate is live returns failure having performed no store
operation, so the channel stays active — while for a non-live candidate
that passes all guards the Capture Record carrying the candidate's URL is
written first and the activation flag is cleared exactly when that write
succeeds. -/
theorem claim_C1_amended_live_deferred_commit_point :
    (∀ (page : ChannelPage) (w : PCWorld) (v : Video),
      w.latestVideo = some v → v.is_live = true →
      process_channel page w = (false, [])) ∧
    (∀ (page : ChannelPage) (w : PCWorld) (v : Video) (script : List Char),
      page.activeCheckbox.getD false = true →
      pageKeyword page ≠ [] → pageUrl page ≠ [] →
      containsSub "youtube.com/".toList (pageUrl page) = true →
      w.channelId.isSome = true →
      w.latestVideo = some v → v.is_live = false → v.is_upcoming = false →
      w.scriptExists = false → w.recentExists = false →
      (match w.transcriptKo with
        | some t => some t
        | none => w.transcriptAuto) = some script →
      script ≠ [] → ¬(stripList script).length < 100 →
      w.uploadDateOk = true →
      (w.createOk = true → process_channel page w =
        (true, [.checkUrl v.url, .checkRecent (pageKeyword page) v.url,
          .create v.url (analysisContent w) true,
          .deactivate page.pageId])) ∧
      (w.createOk = false → process_channel page w =
        (false, [.checkUrl v.url, .checkRecent (pageKeyword page) v.url,
          .create v.url (analysisContent w) false]))) := by
  constructor
  · intro page w v hv hl
    cases hc : w.channelId <;>
      simp [process_channel, hv, hl, hc]
  · intro page w v script hact hkw hurl hyt hcid hv hlive hupc hse hre htr
      hs1 hs2 hdate
    exact process_channel_capture page w v script hact hkw hurl hyt hcid
      hv hlive hupc hse hre htr hs1 hs2 hdate

/-- Witness for C1's amended claim: the live run defers, the successful
normal run captures and deactivates, the failed write leaves the channel
active. -/
theorem claim_C1_amended_live_deferred_commit_point_witness :
    process_channel testPage wLiveRun = (false, []) ∧
    process_channel testPage wNormSucc =
      (true, [.checkUrl testClipVideo.url,
        .checkRecent (pageKeyword testPage) testClipVideo.url,
        .create testClipVideo.url (analysisContent wNormSucc) true,
        .deactivate testPage.pageId]) ∧
    process_channel testPage wNormFail =
      (false, [.checkUrl testClipVideo.url,
        .checkRecent (pageKeyword testPage) testClipVideo.url,
        .create testClipVideo.url (analysisContent wNormFail) false]) :=
  ⟨claim_C1_amended_live_deferred_commit_point.1 testPage wLiveRun
      testLiveVideo (by decide) rfl,
   (claim_C1_amended_live_deferred_commit_point.2 testPage wNormSucc
      testClipVideo testScript (by decide) (by decide) (by decide)
      (by decide) (by decide) rfl rfl rfl rfl rfl rfl (by decide)
      (by decide) rfl).1 rfl,
   (claim_C1_amended_live_deferred_commit_point.2 testPage wNormFail
      testClipVideo testScript (by decide) (by decide) (by decide)
      (by decide) (by decide) rfl rfl rfl rfl rfl rfl (by decide)
      (by decide) rfl).2 rfl⟩

/-- An analysis result embedding the analyzer's own error marker. -/
def markedError : List Char :=
  analysisErrorHeader [] ++
    "Gemini API 호출 중 오류가 발생했습니다: boom".toList

/-- Collaborator results where the analysis call returned the
marker-bearing error text and the store write succeeds. -/
def wMarkedRun : PCWorld :=
  { channelId := some "UC1".toList, latestVideo := some testClipVideo,
    scriptExists := false, recentExists := false,
    transcriptKo := some testScript, transcriptAuto := none,
    uploadDateOk := true, analysis := .ok markedError, createOk := true }

set_option maxRecDepth 16384 in
/-- C2 counterexample: when the analysis call returns text embedding the
error marker `분석 오류`, the pipeline persists a Capture Record whose
content body is exactly that error text and then deactivates the channel
— the opposite of treating the marker as a failure. -/
theorem claim_C2_counterexample :
    containsSub "분석 오류".toList markedError = true ∧
    process_channel testPage wMarkedRun =
      (true, [.checkUrl testClipVideo.url,
        .checkRecent (pageKeyword testPage) testClipVideo.url,
        .create testClipVideo.url markedError true,
        .deactivate testPage.pageId]) := by decide

/-- Collaborator results where the analysis call raised and the store
write succeeds. -/
def wErrRun : PCWorld :=
  { channelId := some "UC1".toList, latestVideo := some testClipVideo,
    scriptExists := false, recentExists := false,
    transcriptKo := some testScript, transcriptAuto := none,
    uploadDateOk := true, analysis := .error "boom".toList,
    createOk := true }

/-- As `wMarkedRun` but the store write fails. -/
def wMarkedFail : PCWorld :=
  { channelId := some "UC1".toList, latestVideo := some testClipVideo,
    scriptExists := false, recentExists := false,
    transcriptKo := some testScript, transcriptAuto := none,
    uploadDateOk := true, analysis := .ok markedError, createOk := false }

/-- C2 amended: the analyzer hands marker-bearing text back unchanged
(skipping only the markdown cleanup), and `process_channel` persists the
analysis step's outcome as the record's content — the returned text as
is, or the fallback error report when the call raised — deactivating the
channel exactly when the write succeeds; only a failed write (or an
earlier guard) leaves the channel active. -/
theorem claim_C2_amended_error_text_persisted :
    (∀ pn r : List Char, r ≠ [] →
      (containsSub "분석 오류".toList r ||
        containsSub "오류 내용".toList r) = true →
      gemini_post pn r = r) ∧
    (∀ (w : PCWorld) (e : List Char), w.analysis = .error e →
      analysisContent w =
        ("# AI 분석 보고서\n\n## 분석 오류\n\n분석 과정에서 오류가 발생했습니다: ").toList
          ++ e) ∧
    (∀ (page : ChannelPage) (w : PCWorld) (v : Video) (script : List Char),
      page.activeCheckbox.getD false = true →
      pageKeyword page ≠ [] → pageUrl page ≠ [] →
      containsSub "youtube.com/".toList (pageUrl page) = true →
      w.channelId.isSome = true →
      w.latestVideo = some v → v.is_live = false → v.is_upcoming = false →
      w.scriptExists = false → w.recentExists = false →
      (match w.transcriptKo with
        | some t => some t
        | none => w.transcriptAuto) = some script →
      script ≠ [] → ¬(stripList script).length < 100 →
      w.uploadDateOk = true →
      (w.createOk = true → process_channel page w =
        (true, [.checkUrl v.url, .checkRecent (pageKeyword page) v.url,
          .create v.url (analysisContent w) true,
          .deactivate page.pageId])) ∧
      (w.createOk = false → process_channel page w =
        (false, [.checkUrl v.url, .checkRecent (pageKeyword page) v.url,
          .create v.url (analysisContent w) false]))) := by
  refine ⟨?_, ?_, ?_⟩
  · intro pn r hne hmark
    rw [gemini_post, if_pos hne, if_pos hmark]
  · intro w e he
    simp [analysisContent, he]
  · intro page w v script hact hkw hurl hyt hcid hv hlive hupc hse hre htr
      hs1 hs2 hdate
    exact process_channel_capture page w v script hact hkw hurl hyt hcid
      hv hlive hupc hse hre htr hs1 hs2 hdate

/-- Witness for C2's amended claim: the marker text passes through the
analyzer unchanged; a raised analysis call persists the fallback report
and deactivates; a failed write keeps the channel active. -/
theorem claim_C2_amended_error_text_persisted_witness :
    gemini_post "P".toList markedError = markedError ∧
    process_channel testPage wErrRun =
      (true, [.checkUrl testClipVideo.url,
        .checkRecent (pageKeyword testPage) testClipVideo.url,
        .create testClipVideo.url (analysisContent wErrRun) true,
        .deactivate testPage.pageId]) ∧
    process_channel testPage wMarkedFail =
      (false, [.checkUrl testClipVideo.url,
        .checkRecent (pageKeyword testPage) testClipVideo.url,
        .create testClipVideo.url (analysisContent wMarkedFail) false]) :=
  ⟨claim_C2_amended_error_text_persisted.1 "P".toList markedError
      (by decide) (by decide),
   (claim_C2_amended_error_text_persisted.2.2 testPage wErrRun
      testClipVideo testScript (by decide) (by decide) (by decide)
      (by decide) (by decide) rfl rfl rfl rfl rfl rfl (by decide)
      (by decide) rfl).1 rfl,
   (claim_C2_amended_error_text_persisted.2.2 testPage wMarkedFail
      testClipVideo testScript (by decide) (by decide) (by decide)
      (by decide) (by decide) rfl rfl rfl rfl rfl rfl (by decide)
      (by decide) rfl).2 rfl⟩

end KoreaStock
